import Mathlib

/-!
Verification development for the generic control-binding registry and the
text-to-typed-value bridge of `src/scripts/dubgg_libiec_server.c`.

The C file is shallowly embedded below.  External collaborators from the
libiec61850 library (object-reference resolution, parent lookup, the server
update API, the wall clock) are modelled as explicit parameters or as emitted
event lists; all logic that lives in the C file itself (child lookup with
functional-constraint fallback, registration, traversal, the control handler,
the bridge line handler, the type-inference heuristic) is translated
function by function.

Modelling conventions:
* machine side effects (`IedServer_updateAttributeValue`,
  `IedServer_updateUTCTimeAttributeValue`) become `ServerEvent` values;
* `printf` output becomes a list of strings (one entry per line, without the
  trailing newline);
* the fallibility of `realloc` is modelled by an explicit oracle stream of
  booleans carried in the registry state: each allocation attempt consumes the
  head of the stream (an empty stream means every remaining allocation
  succeeds);
* C strings are Lean `String`s; the fixed 256-byte buffers become explicit
  truncation to 255 characters (the terminating NUL byte is implicit in the
  Lean string representation).
-/

/-! Device-model tree.  Mirrors the `ModelNode` hierarchy of the library:
every node has a model-node type, a name, an optional functional constraint
and an ordered list of children. -/

inductive ModelNodeType where
  | LogicalDeviceModelType
  | LogicalNodeModelType
  | DataObjectModelType
  | DataAttributeModelType
deriving DecidableEq

inductive FunctionalConstraint where
  | ST
  | CO
  | MX
  | CF
deriving DecidableEq

inductive ModelNode where
  | mk (mtype : ModelNodeType) (name : String) (fc : Option FunctionalConstraint)
       (children : List ModelNode)

def ModelNode.mtype : ModelNode → ModelNodeType
  | .mk t _ _ _ => t

def ModelNode.name : ModelNode → String
  | .mk _ n _ _ => n

def ModelNode.fc : ModelNode → Option FunctionalConstraint
  | .mk _ _ f _ => f

def ModelNode.children : ModelNode → List ModelNode
  | .mk _ _ _ cs => cs

/-- Embeds `ModelNode_getType`. -/
def ModelNode_getType (node : ModelNode) : ModelNodeType := node.mtype

/-- Embeds `ModelNode_getChildWithFc`: first direct child with the given name
whose functional constraint matches. -/
def ModelNode_getChildWithFc (node : ModelNode) (nm : String)
    (fc : FunctionalConstraint) : Option ModelNode :=
  node.children.find? (fun c => c.name == nm && c.fc == some fc)

/-- Embeds `ModelNode_getChild` for a plain name: first direct child with the
given name, regardless of functional constraint. -/
def ModelNode_getChild (node : ModelNode) (nm : String) : Option ModelNode :=
  node.children.find? (fun c => c.name == nm)

/-- Embeds `ModelNode_getName`. -/
def ModelNode_getName (node : ModelNode) : String := node.name

/-! Typed protocol values (`MmsValue`).  The float constructor carries the raw
source text handed to `strtof`; no claim inspects the numeric float value, and
IEEE rounding is outside this embedding. -/

inductive MmsValue where
  | boolean (b : Bool)
  | float32 (raw : String)
  | int32 (i : Int)
deriving DecidableEq

/-- C `isspace` over the default locale, as consulted by `atoi`. -/
def cIsSpace (c : Char) : Bool :=
  c = ' ' || c = '\t' || c = '\n' || c = '\x0b' || c = '\x0c' || c = '\r'

/-- Accumulates the leading decimal-digit run, exactly as `atoi` does after
sign handling: stops at the first non-digit. -/
def atoiDigits : List Char → Nat → Nat
  | c :: cs, acc => if c.isDigit then atoiDigits cs (acc * 10 + (c.toNat - 48)) else acc
  | [], acc => acc

/-- Embeds C `atoi`: skip leading whitespace, read an optional sign, then the
longest digit prefix; a string with no leading digits yields `0`. -/
def atoiModel (s : String) : Int :=
  match s.data.dropWhile cIsSpace with
  | '-' :: rest => - (atoiDigits rest 0 : Int)
  | '+' :: rest => (atoiDigits rest 0 : Int)
  | rest => (atoiDigits rest 0 : Int)

/-- Two's-complement wrap to a signed 32-bit integer, the value range of
`MmsValue_newIntegerFromInt32`. -/
def int32wrap (i : Int) : Int := (i + 2 ^ 31) % 2 ^ 32 - 2 ^ 31

/-- Embeds `strcasecmp(a, b) == 0`: case-insensitive string equality. -/
def strcasecmpEq (a b : String) : Bool :=
  a.data.map Char.toLower == b.data.map Char.toLower

/-- Embeds `strchr(s, c) != NULL`: the string contains the character. -/
def strchrHas (s : String) (c : Char) : Bool := s.data.contains c

/-- Embeds the value-construction block of `handle_bridge_update`
(lines 175-183 of the C file): case-insensitive `"true"`/`"false"` gives a
boolean, a string containing a decimal point gives a float built by `strtof`,
anything else gives the `atoi` integer as a signed 32-bit value.  The function
takes only the raw value string; the resolved attribute is not an input. -/
def inferBridgeValue (valStr : String) : MmsValue :=
  if strcasecmpEq valStr "true" || strcasecmpEq valStr "false" then
    MmsValue.boolean (strcasecmpEq valStr "true")
  else if strchrHas valStr '.' then
    MmsValue.float32 valStr
  else
    MmsValue.int32 (int32wrap (atoiModel valStr))

/-- Embeds a bounded C string copy into an `n + 1`-byte buffer
(`strncpy(dst, src, n)` followed by `dst[n] = 0`, and likewise `snprintf`
with buffer size `n + 1`): the result is the first `n` characters. -/
def strncpyBounded (src : String) (n : Nat) : String :=
  String.mk (src.data.take n)

/-! Side-effect events against the external server update API. -/

inductive ServerEvent where
  | updateAttr (attr : ModelNode) (v : MmsValue)
  | updateTime (attr : ModelNode) (timeMs : Nat)

/-! Control Protocol Adapter. -/

structure ControlBinding where
  controlDo : ModelNode
  stValAttr : Option ModelNode
  tAttr : Option ModelNode
  reference : String

structure ControlAction where
  isSelect : Bool

/-- Embeds `ControlAction_isSelect`. -/
def ControlAction_isSelect (a : ControlAction) : Bool := a.isSelect

inductive CheckHandlerResult where
  | CONTROL_ACCEPTED
  | CONTROL_OBJECT_UNDEFINED
deriving DecidableEq

inductive ControlHandlerResult where
  | CONTROL_RESULT_FAILED
  | CONTROL_RESULT_OK
  | CONTROL_RESULT_WAITING
deriving DecidableEq

/-- Embeds `perform_check_handler`: unconditionally accepts. -/
def perform_check_handler (_action : ControlAction) (_parameter : Option ControlBinding)
    (_ctlVal : MmsValue) (_test _interlockCheck : Bool) : CheckHandlerResult :=
  CheckHandlerResult.CONTROL_ACCEPTED

/-- Embeds `generic_control_handler` (lines 34-58).  The C parameter order is
kept: action, opaque binding parameter (a null pointer becomes `none`),
candidate value, test flag.  `now` stands for `Hal_getTimeInMs()`.  The result
pairs the `ControlHandlerResult` with the emitted server events and the
emitted output lines. -/
def generic_control_handler (action : ControlAction) (parameter : Option ControlBinding)
    (ctlVal : MmsValue) (test : Bool) (now : Nat) :
    ControlHandlerResult × List ServerEvent × List String :=
  match parameter with
  | none => (ControlHandlerResult.CONTROL_RESULT_FAILED, [], [])
  | some binding =>
    if test then (ControlHandlerResult.CONTROL_RESULT_OK, [], [])
    else if ControlAction_isSelect action then (ControlHandlerResult.CONTROL_RESULT_OK, [], [])
    else
      (ControlHandlerResult.CONTROL_RESULT_OK,
       (match binding.stValAttr with
        | some a => [ServerEvent.updateAttr a ctlVal]
        | none => [])
        ++ (match binding.tAttr with
            | some a => [ServerEvent.updateTime a now]
            | none => []),
       ["CONTROL_UPDATE " ++ binding.reference])

/-! Binding Registry. -/

/-- Registry state: the global binding array with its count, plus the
allocation oracle stream (see the header comment). -/
structure RegState where
  gBindings : List ControlBinding
  gBindingCount : Nat
  allocStream : List Bool

/-- Initial state: `gBindings = NULL`, `gBindingCount = 0`, every allocation
succeeds. -/
def initRegState : RegState := ⟨[], 0, []⟩

/-- Observable effects of registration and traversal.  `visited` and
`invoked` are ghost logs of the traversal (which nodes were reached, and for
which the registration callback was invoked); `installs` records handler
installation (`IedServer_setPerformCheckHandler` plus
`IedServer_setControlHandler`, one entry per binding); `output` records
`printf` lines. -/
structure RegEffects where
  visited : List ModelNode
  invoked : List ModelNode
  installs : List ControlBinding
  output : List String

def noEffects : RegEffects := ⟨[], [], [], []⟩

def RegEffects.append (a b : RegEffects) : RegEffects :=
  ⟨a.visited ++ b.visited, a.invoked ++ b.invoked,
   a.installs ++ b.installs, a.output ++ b.output⟩

/-- Embeds the child lookup pattern of `register_control_binding` (lines
63-74): a functional-constraint-qualified lookup, with a plain by-name lookup
as fallback when it finds nothing. -/
def lookupFcOrPlain (node : ModelNode) (nm : String) (fc : FunctionalConstraint) :
    Option ModelNode :=
  match ModelNode_getChildWithFc node nm fc with
  | some c => some c
  | none => ModelNode_getChild node nm

/-- Names the registration condition of lines 76-77: the node has an "Oper"
sub-element (FC `CO`, else by name) and an "stVal" sub-element (FC `ST`, else
by name). -/
def bindable (node : ModelNode) : Bool :=
  (lookupFcOrPlain node "Oper" FunctionalConstraint.CO).isSome &&
  (lookupFcOrPlain node "stVal" FunctionalConstraint.ST).isSome

/-- Embeds `register_control_binding` (lines 60-106).  `getRef` stands for
the external `ModelNode_getObjectReference` (a `none` result is the NULL
case, which falls back to `ModelNode_getName`).  If the "Oper" or "stVal"
lookup fails the node is skipped with no state change and no effects.
Otherwise the `realloc` is attempted: on failure the collection pointer is
nulled and the count reset to zero (the C lines 81-84); on success the new
binding is appended, both handlers are installed against it and one
diagnostic line is printed. -/
def register_control_binding (getRef : ModelNode → Option String) (s : RegState)
    (node : ModelNode) : RegState × RegEffects :=
  if bindable node then
    if s.allocStream.headD true then
      let reference : String :=
        match getRef node with
        | some r => strncpyBounded r 255
        | none => strncpyBounded (ModelNode_getName node) 255
      let binding : ControlBinding :=
        ⟨node, lookupFcOrPlain node "stVal" FunctionalConstraint.ST,
         lookupFcOrPlain node "t" FunctionalConstraint.ST, reference⟩
      (⟨s.gBindings ++ [binding], s.gBindingCount + 1, s.allocStream.tail⟩,
       ⟨[], [], [binding], ["Registered control handler for " ++ reference]⟩)
    else
      (⟨[], 0, s.allocStream.tail⟩, noEffects)
  else (s, noEffects)

/-- Embeds `traverse_and_register` (lines 108-122), generalised to a forest
so the nested recursion is structural over the node list: visit the head node
(invoking the registration callback when its type is Data Object), then its
children in stored order, then the remaining forest.  The NULL-node guard of
line 111 has no counterpart because the embedded tree has no null children. -/
def traverseForest (getRef : ModelNode → Option String) (s : RegState) :
    List ModelNode → RegState × RegEffects
  | [] => (s, noEffects)
  | ModelNode.mk t nm fc cs :: rest =>
    let n := ModelNode.mk t nm fc cs
    let head :=
      if ModelNode_getType n = ModelNodeType.DataObjectModelType then
        let r := register_control_binding getRef s n
        (r.1, RegEffects.append ⟨[n], [n], [], []⟩ r.2)
      else (s, (⟨[n], [], [], []⟩ : RegEffects))
    let below := traverseForest getRef head.1 cs
    let beside := traverseForest getRef below.1 rest
    (beside.1, RegEffects.append head.2 (RegEffects.append below.2 beside.2))

/-- Embeds `traverse_and_register` applied to a single root node. -/
def traverse_and_register (getRef : ModelNode → Option String) (s : RegState)
    (node : ModelNode) : RegState × RegEffects :=
  traverseForest getRef s [node]

/-- Embeds `register_all_control_handlers` (lines 124-135): traverse every
logical device in order starting from the empty registry, then print the
summary line. -/
def register_all_control_handlers (getRef : ModelNode → Option String)
    (lds : List ModelNode) : RegState × RegEffects :=
  let r := lds.foldl
    (fun acc ld =>
      let step := traverse_and_register getRef acc.1 ld
      (step.1, RegEffects.append acc.2 step.2))
    (initRegState, noEffects)
  (r.1, RegEffects.append r.2
    ⟨[], [], [], ["Registered " ++ toString r.1.gBindingCount ++
      " controllable data object handlers"]⟩)

/-! Reference predicates on trees, used to state the claims. -/

/-- Pre-order flattening of a forest: each root, then its subtrees in stored
order, then the remaining roots. -/
def preorderForest : List ModelNode → List ModelNode
  | [] => []
  | ModelNode.mk t nm fc cs :: rest =>
    ModelNode.mk t nm fc cs :: (preorderForest cs ++ preorderForest rest)

/-- Pre-order flattening of a single tree. -/
def preorder (node : ModelNode) : List ModelNode := preorderForest [node]

/-- Number of nodes in a forest. -/
def sizeForest : List ModelNode → Nat
  | [] => 0
  | ModelNode.mk _ _ _ cs :: rest => 1 + sizeForest cs + sizeForest rest

/-- Data Object nodes of a forest that satisfy the registration condition. -/
def bindableCountForest (l : List ModelNode) : Nat :=
  ((preorderForest l).filter
    (fun n => n.mtype == ModelNodeType.DataObjectModelType && bindable n)).length

/-! Bridge Ingest Loop. -/

/-- Embeds the resolution chain of `handle_bridge_update` (lines 144-150):
direct resolution through `IedModel_getModelNodeByObjectReference` (the
`resolve` parameter), and on a NULL result a retry with `".stVal"` appended
by `snprintf` into a 256-byte buffer. -/
def bridgeResolve (resolve : String → Option ModelNode) (ref : String) :
    Option ModelNode :=
  match resolve ref with
  | some a => some a
  | none => resolve (strncpyBounded (ref ++ ".stVal") 255)

/-- Embeds the companion-timestamp block of `handle_bridge_update` (lines
188-195): if the resolved attribute's parent exists and has a direct child
named "t", that child is stamped with the current time. -/
def bridgeTimeEvents (getParent : ModelNode → Option ModelNode) (a : ModelNode)
    (now : Nat) : List ServerEvent :=
  match getParent a with
  | some p =>
    match ModelNode_getChild p "t" with
    | some tn => [ServerEvent.updateTime tn now]
    | none => []
  | none => []

/-- Embeds `handle_bridge_update` (lines 139-203).  `resolve` stands for
`IedModel_getModelNodeByObjectReference` on the live model, `getParent` for
`ModelNode_getParent`, `serverUp` for `gIedServer != NULL`, `running` for the
process-wide running flag, `now` for `Hal_getTimeInMs()`.  The result pairs
the emitted server events with the emitted output lines.  Value construction
(`MmsValue_new*`) always succeeds in this embedding, so the `newVal != NULL`
guard of line 185 is always taken. -/
def handle_bridge_update (resolve : String → Option ModelNode)
    (getParent : ModelNode → Option ModelNode) (serverUp running : Bool)
    (now : Nat) (ref valStr : String) : List ServerEvent × List String :=
  if !serverUp then ([], [])
  else
    match bridgeResolve resolve ref with
    | none =>
      ([], if running then ["BRIDGE_ERR: Node not found or not attribute: " ++ ref] else [])
    | some a =>
      if ModelNode_getType a ≠ ModelNodeType.DataAttributeModelType then
        ([], if running then ["BRIDGE_ERR: Node not found or not attribute: " ++ ref] else [])
      else
        (ServerEvent.updateAttr a (inferBridgeValue valStr) :: bridgeTimeEvents getParent a now,
         if running then ["BRIDGE_OK: Updated " ++ ref ++ " = " ++ valStr] else [])

/-- Embeds one iteration body of `stdin_reader_thread` (lines 210-223): trim
the line at the first CR/LF, ignore an empty result, split at the first `=`
into reference and value. -/
def stdin_process_line (line : String) : Option (String × String) :=
  let trimmed := line.data.takeWhile (fun c => c ≠ '\r' && c ≠ '\n')
  if trimmed.length = 0 then none
  else
    match trimmed.dropWhile (fun c => c ≠ '=') with
    | '=' :: rest => some (String.mk (trimmed.takeWhile (fun c => c ≠ '=')), String.mk rest)
    | _ => none

/-! Concrete model fixtures used by witnesses and counterexamples. -/

def stValNode : ModelNode :=
  ModelNode.mk ModelNodeType.DataAttributeModelType "stVal" (some FunctionalConstraint.ST) []

def tNode : ModelNode :=
  ModelNode.mk ModelNodeType.DataAttributeModelType "t" (some FunctionalConstraint.ST) []

def operNode : ModelNode :=
  ModelNode.mk ModelNodeType.DataObjectModelType "Oper" (some FunctionalConstraint.CO) []

/-- A controllable Data Object: has "Oper", "stVal" and "t" sub-elements. -/
def sampleDO : ModelNode :=
  ModelNode.mk ModelNodeType.DataObjectModelType "SPCSO1" none [operNode, stValNode, tNode]

/-- A Data Object with a status attribute but no operate sub-element. -/
def plainDO : ModelNode :=
  ModelNode.mk ModelNodeType.DataObjectModelType "Beh" none [stValNode]

def lnNode : ModelNode :=
  ModelNode.mk ModelNodeType.LogicalNodeModelType "LLN0" none [sampleDO, plainDO]

def sampleLD : ModelNode :=
  ModelNode.mk ModelNodeType.LogicalDeviceModelType "LD0" none [lnNode]

def getRefNone : ModelNode → Option String := fun _ => none

def getParentNone : ModelNode → Option ModelNode := fun _ => none

/-! Helper lemmas. -/

theorem register_ghost_empty (getRef : ModelNode → Option String) (s : RegState)
    (node : ModelNode) :
    (register_control_binding getRef s node).2.visited = [] ∧
    (register_control_binding getRef s node).2.invoked = [] := by
  unfold register_control_binding
  split
  · split
    · simp
    · simp [noEffects]
  · simp [noEffects]

theorem register_count_step (getRef : ModelNode → Option String) (s : RegState)
    (node : ModelNode) (h : s.allocStream = []) :
    (register_control_binding getRef s node).1.gBindingCount
      = s.gBindingCount + (if bindable node then 1 else 0) ∧
    (register_control_binding getRef s node).1.allocStream = [] := by
  unfold register_control_binding
  by_cases hb : bindable node <;> simp [hb, h]

theorem bcf_nil : bindableCountForest [] = 0 := by
  simp [bindableCountForest, preorderForest]

theorem bcf_cons (t : ModelNodeType) (nm : String) (fc : Option FunctionalConstraint)
    (cs rest : List ModelNode) :
    bindableCountForest (ModelNode.mk t nm fc cs :: rest)
      = (if t = ModelNodeType.DataObjectModelType ∧ bindable (ModelNode.mk t nm fc cs) = true
          then 1 else 0)
        + bindableCountForest cs + bindableCountForest rest := by
  by_cases ht : t = ModelNodeType.DataObjectModelType
  · subst ht
    simp only [bindableCountForest, preorderForest, List.filter_cons, List.filter_append,
      List.length_append, ModelNode.mtype]
    by_cases hb : bindable
        (ModelNode.mk ModelNodeType.DataObjectModelType nm fc cs) = true <;>
      simp [hb] <;> omega
  · have hne : (((ModelNode.mk t nm fc cs).mtype == ModelNodeType.DataObjectModelType)
        && bindable (ModelNode.mk t nm fc cs)) = false := by
      simp [ModelNode.mtype, ht]
    simp only [bindableCountForest, preorderForest, List.filter_cons, List.filter_append,
      List.length_append, hne]
    simp [ht]

theorem trav_nil (getRef : ModelNode → Option String) (s : RegState) :
    traverseForest getRef s [] = (s, noEffects) := by
  simp [traverseForest]

theorem trav_cons_do_fst (getRef : ModelNode → Option String) (s : RegState)
    (nm : String) (fc : Option FunctionalConstraint) (cs rest : List ModelNode) :
    (traverseForest getRef s
        (ModelNode.mk ModelNodeType.DataObjectModelType nm fc cs :: rest)).1
      = (traverseForest getRef
          (traverseForest getRef
            (register_control_binding getRef s
              (ModelNode.mk ModelNodeType.DataObjectModelType nm fc cs)).1 cs).1 rest).1 := by
  simp [traverseForest, ModelNode_getType, ModelNode.mtype]

theorem trav_cons_do_snd (getRef : ModelNode → Option String) (s : RegState)
    (nm : String) (fc : Option FunctionalConstraint) (cs rest : List ModelNode) :
    (traverseForest getRef s
        (ModelNode.mk ModelNodeType.DataObjectModelType nm fc cs :: rest)).2
      = RegEffects.append
          (RegEffects.append
            ⟨[ModelNode.mk ModelNodeType.DataObjectModelType nm fc cs],
             [ModelNode.mk ModelNodeType.DataObjectModelType nm fc cs], [], []⟩
            (register_control_binding getRef s
              (ModelNode.mk ModelNodeType.DataObjectModelType nm fc cs)).2)
          (RegEffects.append
            (traverseForest getRef
              (register_control_binding getRef s
                (ModelNode.mk ModelNodeType.DataObjectModelType nm fc cs)).1 cs).2
            (traverseForest getRef
              (traverseForest getRef
                (register_control_binding getRef s
                  (ModelNode.mk ModelNodeType.DataObjectModelType nm fc cs)).1 cs).1 rest).2) := by
  simp [traverseForest, ModelNode_getType, ModelNode.mtype]

theorem trav_cons_other_fst (getRef : ModelNode → Option String) (s : RegState)
    (t : ModelNodeType) (nm : String) (fc : Option FunctionalConstraint)
    (cs rest : List ModelNode) (ht : t ≠ ModelNodeType.DataObjectModelType) :
    (traverseForest getRef s (ModelNode.mk t nm fc cs :: rest)).1
      = (traverseForest getRef (traverseForest getRef s cs).1 rest).1 := by
  simp [traverseForest, ModelNode_getType, ModelNode.mtype, ht]

theorem trav_cons_other_snd (getRef : ModelNode → Option String) (s : RegState)
    (t : ModelNodeType) (nm : String) (fc : Option FunctionalConstraint)
    (cs rest : List ModelNode) (ht : t ≠ ModelNodeType.DataObjectModelType) :
    (traverseForest getRef s (ModelNode.mk t nm fc cs :: rest)).2
      = RegEffects.append ⟨[ModelNode.mk t nm fc cs], [], [], []⟩
          (RegEffects.append (traverseForest getRef s cs).2
            (traverseForest getRef (traverseForest getRef s cs).1 rest).2) := by
  simp [traverseForest, ModelNode_getType, ModelNode.mtype, ht]

theorem trav_count (getRef : ModelNode → Option String) :
    ∀ (l : List ModelNode) (s : RegState), s.allocStream = [] →
      (traverseForest getRef s l).1.gBindingCount = s.gBindingCount + bindableCountForest l ∧
      (traverseForest getRef s l).1.allocStream = [] := by
  intro l
  induction l using preorderForest.induct with
  | case1 =>
    intro s h
    simp [trav_nil, bcf_nil, h]
  | case2 t nm fc cs rest ihcs ihrest =>
    intro s h
    rw [bcf_cons]
    by_cases ht : t = ModelNodeType.DataObjectModelType
    · subst ht
      obtain ⟨hc0, hs0⟩ := register_count_step getRef s
        (ModelNode.mk ModelNodeType.DataObjectModelType nm fc cs) h
      obtain ⟨hc1, hs1⟩ := ihcs _ hs0
      obtain ⟨hc2, hs2⟩ := ihrest _ hs1
      rw [trav_cons_do_fst]
      refine ⟨?_, hs2⟩
      rw [hc2, hc1, hc0]
      by_cases hb : bindable
          (ModelNode.mk ModelNodeType.DataObjectModelType nm fc cs) = true <;>
        simp [hb] <;> omega
    · obtain ⟨hc1, hs1⟩ := ihcs s h
      obtain ⟨hc2, hs2⟩ := ihrest _ hs1
      rw [trav_cons_other_fst getRef s t nm fc cs rest ht]
      refine ⟨?_, hs2⟩
      rw [hc2, hc1]
      simp [ht] <;> omega

theorem trav_log (getRef : ModelNode → Option String) :
    ∀ (l : List ModelNode) (s : RegState),
      (traverseForest getRef s l).2.visited = preorderForest l ∧
      (traverseForest getRef s l).2.invoked
        = (preorderForest l).filter
            (fun n => n.mtype == ModelNodeType.DataObjectModelType) := by
  intro l
  induction l using preorderForest.induct with
  | case1 =>
    intro s
    simp [trav_nil, preorderForest, noEffects]
  | case2 t nm fc cs rest ihcs ihrest =>
    intro s
    by_cases ht : t = ModelNodeType.DataObjectModelType
    · subst ht
      obtain ⟨hg1, hg2⟩ := register_ghost_empty getRef s
        (ModelNode.mk ModelNodeType.DataObjectModelType nm fc cs)
      obtain ⟨hv1, hi1⟩ := ihcs
        ((register_control_binding getRef s
          (ModelNode.mk ModelNodeType.DataObjectModelType nm fc cs)).1)
      obtain ⟨hv2, hi2⟩ := ihrest
        ((traverseForest getRef
          (register_control_binding getRef s
            (ModelNode.mk ModelNodeType.DataObjectModelType nm fc cs)).1 cs).1)
      rw [trav_cons_do_snd]
      constructor
      · simp [RegEffects.append, hg1, hv1, hv2, preorderForest]
      · simp [RegEffects.append, hg2, hi1, hi2, preorderForest, List.filter_cons,
          List.filter_append, ModelNode.mtype]
    · obtain ⟨hv1, hi1⟩ := ihcs s
      obtain ⟨hv2, hi2⟩ := ihrest ((traverseForest getRef s cs).1)
      rw [trav_cons_other_snd getRef s t nm fc cs rest ht]
      constructor
      · simp [RegEffects.append, hv1, hv2, preorderForest]
      · have hne : ((ModelNode.mk t nm fc cs).mtype
            == ModelNodeType.DataObjectModelType) = false := by
          simp [ModelNode.mtype, ht]
        simp [RegEffects.append, hi1, hi2, preorderForest, List.filter_cons,
          List.filter_append, hne]

theorem preorder_length :
    ∀ l : List ModelNode, (preorderForest l).length = sizeForest l := by
  intro l
  induction l using preorderForest.induct with
  | case1 => simp [preorderForest, sizeForest]
  | case2 t nm fc cs rest ihcs ihrest =>
    simp [preorderForest, sizeForest, ihcs, ihrest]
    omega

theorem fold_trav_count (getRef : ModelNode → Option String) :
    ∀ (lds : List ModelNode) (acc : RegState × RegEffects), acc.1.allocStream = [] →
      (List.foldl (fun a ld =>
          ((traverse_and_register getRef a.1 ld).1,
           RegEffects.append a.2 (traverse_and_register getRef a.1 ld).2)) acc lds).1.gBindingCount
        = acc.1.gBindingCount + bindableCountForest lds ∧
      (List.foldl (fun a ld =>
          ((traverse_and_register getRef a.1 ld).1,
           RegEffects.append a.2 (traverse_and_register getRef a.1 ld).2)) acc lds).1.allocStream
        = [] := by
  intro lds
  induction lds with
  | nil =>
    intro acc h
    simp [bcf_nil, h]
  | cons ld rest ih =>
    intro acc h
    obtain ⟨t, nm, fc, cs⟩ := ld
    obtain ⟨hcnt, hstr⟩ := trav_count getRef [ModelNode.mk t nm fc cs] acc.1 h
    simp only [List.foldl_cons]
    have hstr' : ((traverse_and_register getRef acc.1 (ModelNode.mk t nm fc cs)).1,
        RegEffects.append acc.2
          (traverse_and_register getRef acc.1 (ModelNode.mk t nm fc cs)).2).1.allocStream
        = [] := by
      simpa [traverse_and_register] using hstr
    obtain ⟨ih1, ih2⟩ := ih _ hstr'
    refine ⟨?_, ih2⟩
    rw [ih1]
    have hcnt' : ((traverse_and_register getRef acc.1 (ModelNode.mk t nm fc cs)).1,
        RegEffects.append acc.2
          (traverse_and_register getRef acc.1 (ModelNode.mk t nm fc cs)).2).1.gBindingCount
        = acc.1.gBindingCount + bindableCountForest [ModelNode.mk t nm fc cs] := by
      simpa [traverse_and_register] using hcnt
    rw [hcnt']
    rw [bcf_cons t nm fc cs [], bcf_cons t nm fc cs rest, bcf_nil]
    omega

theorem regAll_count (getRef : ModelNode → Option String) (lds : List ModelNode) :
    (register_all_control_handlers getRef lds).1.gBindingCount = bindableCountForest lds := by
  have h := fold_trav_count getRef lds (initRegState, noEffects) rfl
  simpa [register_all_control_handlers, initRegState] using h.1

theorem strncpyBounded_length (s : String) (n : Nat) :
    (strncpyBounded s n).length ≤ n := by
  show (s.data.take n).length ≤ n
  rw [List.length_take]
  omega

/-! Claim theorems. -/

/-- C1: `register(dataObjectNode)` creates a `ControlBinding` if and only if
the node has both an "Oper" and an "stVal" sub-element (each located by the
functional-constraint-qualified lookup with a plain by-name fallback): when
both are present (and the allocation succeeds, which is the claim's implicit
normal case) exactly one binding is appended and exactly one handler
installation happens; when either is missing the call leaves the state
untouched and produces no binding, no handler installation and no diagnostic;
and after the full registration pass, the registry count equals exactly the
number of Data Object nodes having both sub-elements. -/
theorem claim1_binding_iff_and_count (getRef : ModelNode → Option String) (s : RegState)
    (node : ModelNode) (halloc : s.allocStream = []) :
    (bindable node = true →
       (register_control_binding getRef s node).1.gBindings
         = s.gBindings ++ (register_control_binding getRef s node).2.installs ∧
       (register_control_binding getRef s node).1.gBindingCount = s.gBindingCount + 1 ∧
       (register_control_binding getRef s node).2.installs.length = 1) ∧
    (bindable node = false →
       register_control_binding getRef s node = (s, noEffects)) ∧
    (∀ lds : List ModelNode,
       (register_all_control_handlers getRef lds).1.gBindingCount
         = bindableCountForest lds) := by
  refine ⟨?_, ?_, fun lds => regAll_count getRef lds⟩
  · intro hb
    unfold register_control_binding
    simp [hb, halloc]
  · intro hb
    unfold register_control_binding
    simp [hb]

/-- C1 witness: on a concrete logical device, the controllable Data Object
`sampleDO` is registered, the Data Object `plainDO` (no "Oper") is skipped
with no effects, and the full pass count matches the bindable Data Object
count. -/
theorem claim1_witness :
    ((register_control_binding getRefNone initRegState sampleDO).1.gBindingCount
        = initRegState.gBindingCount + 1) ∧
    (register_control_binding getRefNone initRegState plainDO = (initRegState, noEffects)) ∧
    ((register_all_control_handlers getRefNone [sampleLD]).1.gBindingCount
        = bindableCountForest [sampleLD]) := by
  have h1 := claim1_binding_iff_and_count getRefNone initRegState sampleDO rfl
  have h2 := claim1_binding_iff_and_count getRefNone initRegState plainDO rfl
  exact ⟨(h1.1 (by decide)).2.1, h2.2.1 (by decide), h1.2.2 [sampleLD]⟩

/-- C8: the traversal visits every node of the tree exactly once, in
pre-order with children in stored sibling order (the ghost visit log equals
the pre-order flattening, whose length is the tree's node count), and the
registration callback is invoked for exactly the visited nodes whose kind is
Data Object — including Data Objects nested under other Data Objects. -/
theorem claim8_traversal (getRef : ModelNode → Option String) (s : RegState)
    (node : ModelNode) :
    (traverse_and_register getRef s node).2.visited = preorder node ∧
    (traverse_and_register getRef s node).2.invoked
      = (preorder node).filter (fun n => n.mtype == ModelNodeType.DataObjectModelType) ∧
    (preorder node).length = sizeForest [node] := by
  obtain ⟨h1, h2⟩ := trav_log getRef [node] s
  exact ⟨by simpa [traverse_and_register, preorder] using h1,
         by simpa [traverse_and_register, preorder] using h2,
         by simpa [preorder] using preorder_length [node]⟩

/-- C2 counterexample: the claim says that after an allocation failure every
subsequent `register` call adds no binding.  In the code, failure sets
`gBindings = NULL` and `gBindingCount = 0`, so the next call's
`realloc(NULL, ...)` is a fresh allocation that can succeed: starting from
the post-failure state, registering the same controllable Data Object again
yields a registry count of `1`, not `0`. -/
theorem claim2_counterexample :
    (register_control_binding getRefNone ⟨[], 0, [false]⟩ sampleDO).1.gBindingCount = 0 ∧
    (register_control_binding getRefNone
        (register_control_binding getRefNone ⟨[], 0, [false]⟩ sampleDO).1
        sampleDO).1.gBindingCount = 1 := by
  constructor
  · rfl
  · rfl

/-- C2 (amended): if growing the binding collection fails during
`register(dataObjectNode)`, the registry does not crash, the failing call
adds no binding, installs no handler and prints nothing, and the count is
reset to zero with the collection emptied; subsequent `register` calls
operate on the fresh empty collection and may accept bindings again once
allocation succeeds (rather than accepting no further bindings). -/
theorem claim2_alloc_failure (getRef getRef2 : ModelNode → Option String) (s : RegState)
    (node node2 : ModelNode) (halloc : s.allocStream = [false])
    (hb : bindable node = true) (hb2 : bindable node2 = true) :
    register_control_binding getRef s node = (⟨[], 0, []⟩, noEffects) ∧
    (register_control_binding getRef2
        (register_control_binding getRef s node).1 node2).1.gBindingCount = 1 ∧
    (register_control_binding getRef2
        (register_control_binding getRef s node).1 node2).1.gBindings.length = 1 := by
  have h1 : register_control_binding getRef s node = (⟨[], 0, []⟩, noEffects) := by
    unfold register_control_binding
    simp [hb, halloc]
  refine ⟨h1, ?_, ?_⟩ <;>
    · rw [h1]
      unfold register_control_binding
      simp [hb2]

/-- C2 witness: the amended behaviour at a concrete failing allocation. -/
theorem claim2_witness :
    (register_control_binding getRefNone ⟨[], 0, [false]⟩ sampleDO
        = (⟨[], 0, []⟩, noEffects)) ∧
    (register_control_binding getRefNone
        (register_control_binding getRefNone ⟨[], 0, [false]⟩ sampleDO).1
        sampleDO).1.gBindingCount = 1 ∧
    (register_control_binding getRefNone
        (register_control_binding getRefNone ⟨[], 0, [false]⟩ sampleDO).1
        sampleDO).1.gBindings.length = 1 :=
  claim2_alloc_failure getRefNone getRefNone ⟨[], 0, [false]⟩ sampleDO sampleDO rfl
    (by decide) (by decide)

/-- C9: every binding the registry creates stores a cached path that never
exceeds the 255-character capacity of its fixed 256-byte buffer: when the
server-assigned object reference is available it is copied truncated to at
most 255 characters, otherwise the bare node name is copied the same way,
for any input length. -/
theorem claim9_reference_bounded (getRef : ModelNode → Option String) (s : RegState)
    (node : ModelNode) (b : ControlBinding)
    (hinst : (register_control_binding getRef s node).2.installs = [b]) :
    b.reference.length ≤ 255 ∧
    b.reference = (match getRef node with
      | some r => strncpyBounded r 255
      | none => strncpyBounded (ModelNode_getName node) 255) := by
  unfold register_control_binding at hinst
  by_cases hb : bindable node = true
  · by_cases ha : s.allocStream.headD true = true
    · rw [if_pos hb, if_pos ha] at hinst
      simp at hinst
      subst hinst
      refine ⟨?_, rfl⟩
      cases hr : getRef node with
      | none => exact strncpyBounded_length (ModelNode_getName node) 255
      | some r => exact strncpyBounded_length r 255
    · rw [if_pos hb, if_neg ha] at hinst
      simp [noEffects] at hinst
  · rw [if_neg hb] at hinst
    simp [noEffects] at hinst

/-! Additional fixtures for the handler and bridge claims. -/

def longRef : String := String.mk (List.replicate 300 'x')

def getRefLong : ModelNode → Option String := fun _ => some longRef

def longBinding : ControlBinding :=
  ⟨sampleDO, some stValNode, some tNode, strncpyBounded longRef 255⟩

def sampleBindingFull : ControlBinding :=
  ⟨sampleDO, some stValNode, some tNode, "LD0/LLN0.SPCSO1"⟩

def modDO : ModelNode :=
  ModelNode.mk ModelNodeType.DataObjectModelType "Mod" none [stValNode, tNode]

/-- Resolution map where the Data Object path itself resolves (to a
non-attribute node), as `IedModel_getModelNodeByObjectReference` does for a
Data Object reference in the external library. -/
def resolveCex : String → Option ModelNode := fun p =>
  if p = "LD0/LLN0.Mod" then some modDO
  else if p = "LD0/LLN0.Mod.stVal" then some stValNode
  else none

/-- Resolution map where only the full attribute path resolves. -/
def resolveFb : String → Option ModelNode := fun p =>
  if p = "LD0/LLN0.Mod.stVal" then some stValNode else none

def getParentMod : ModelNode → Option ModelNode := fun _ => some modDO

/-- C9 witness: a 300-character object reference is truncated to 255
characters in the concrete binding produced for `sampleDO`. -/
theorem claim9_witness :
    longBinding.reference.length ≤ 255 ∧
    longBinding.reference = (match getRefLong sampleDO with
      | some r => strncpyBounded r 255
      | none => strncpyBounded (ModelNode_getName sampleDO) 255) :=
  claim9_reference_bounded getRefLong initRegState sampleDO longBinding rfl

/-- C4: with a non-null binding, a test-flagged invocation or a select-step
action returns OK with no server event and no output line, for any candidate
value and any binding contents. -/
theorem claim4_test_or_select_no_effect (action : ControlAction) (b : ControlBinding)
    (ctlVal : MmsValue) (test : Bool) (now : Nat)
    (h : test = true ∨ ControlAction_isSelect action = true) :
    generic_control_handler action (some b) ctlVal test now
      = (ControlHandlerResult.CONTROL_RESULT_OK, [], []) := by
  rcases h with h | h
  · subst h
    simp [generic_control_handler]
  · cases test <;> simp [generic_control_handler, h]

/-- C4 witness: dry-run semantics at a concrete binding, once via the test
flag and once via a select action. -/
theorem claim4_witness :
    generic_control_handler ⟨false⟩ (some sampleBindingFull) (MmsValue.boolean true) true 5
      = (ControlHandlerResult.CONTROL_RESULT_OK, [], []) ∧
    generic_control_handler ⟨true⟩ (some sampleBindingFull) (MmsValue.int32 3) false 5
      = (ControlHandlerResult.CONTROL_RESULT_OK, [], []) :=
  ⟨claim4_test_or_select_no_effect ⟨false⟩ sampleBindingFull (MmsValue.boolean true) true 5
     (Or.inl rfl),
   claim4_test_or_select_no_effect ⟨true⟩ sampleBindingFull (MmsValue.int32 3) false 5
     (Or.inr rfl)⟩

/-- C5: a real operate (non-null binding, test false, non-select action)
returns OK, emits exactly one `CONTROL_UPDATE <path>` line carrying the
binding's cached path, writes the candidate value to the status attribute
when present, stamps the timestamp attribute with the current time when
present, and performs no other server event. -/
theorem claim5_operate_effects (action : ControlAction) (b : ControlBinding)
    (ctlVal : MmsValue) (now : Nat) (hsel : ControlAction_isSelect action = false) :
    (generic_control_handler action (some b) ctlVal false now).1
      = ControlHandlerResult.CONTROL_RESULT_OK ∧
    (generic_control_handler action (some b) ctlVal false now).2.2
      = ["CONTROL_UPDATE " ++ b.reference] ∧
    (∀ a, b.stValAttr = some a →
       ServerEvent.updateAttr a ctlVal
         ∈ (generic_control_handler action (some b) ctlVal false now).2.1) ∧
    (∀ a, b.tAttr = some a →
       ServerEvent.updateTime a now
         ∈ (generic_control_handler action (some b) ctlVal false now).2.1) ∧
    (b.stValAttr = none → b.tAttr = none →
       (generic_control_handler action (some b) ctlVal false now).2.1 = []) := by
  refine ⟨by simp [generic_control_handler, hsel],
          by simp [generic_control_handler, hsel], ?_, ?_, ?_⟩
  · intro a ha
    simp [generic_control_handler, hsel, ha]
  · intro a ha
    simp [generic_control_handler, hsel, ha]
  · intro h1 h2
    simp [generic_control_handler, hsel, h1, h2]

/-- C5 witness: at a concrete binding with both optional attributes present,
one operate produces the status write, the timestamp stamp and exactly one
`CONTROL_UPDATE` line. -/
theorem claim5_witness :
    (generic_control_handler ⟨false⟩ (some sampleBindingFull)
        (MmsValue.boolean true) false 9).1 = ControlHandlerResult.CONTROL_RESULT_OK ∧
    (generic_control_handler ⟨false⟩ (some sampleBindingFull)
        (MmsValue.boolean true) false 9).2.2
      = ["CONTROL_UPDATE " ++ sampleBindingFull.reference] ∧
    ServerEvent.updateAttr stValNode (MmsValue.boolean true)
      ∈ (generic_control_handler ⟨false⟩ (some sampleBindingFull)
          (MmsValue.boolean true) false 9).2.1 ∧
    ServerEvent.updateTime tNode 9
      ∈ (generic_control_handler ⟨false⟩ (some sampleBindingFull)
          (MmsValue.boolean true) false 9).2.1 := by
  have h := claim5_operate_effects ⟨false⟩ sampleBindingFull (MmsValue.boolean true) 9 rfl
  exact ⟨h.1, h.2.1, h.2.2.1 stValNode rfl, h.2.2.2.1 tNode rfl⟩

/-- C7: the operate handler returns FAILED exactly when the opaque binding
pointer is null, the null case produces no server event and no output, and
every non-null invocation returns OK (never FAILED, never WAITING)
regardless of action, value, test flag or binding contents. -/
theorem claim7_failed_iff_null (action : ControlAction) (parameter : Option ControlBinding)
    (ctlVal : MmsValue) (test : Bool) (now : Nat) :
    ((generic_control_handler action parameter ctlVal test now).1
        = ControlHandlerResult.CONTROL_RESULT_FAILED ↔ parameter = none) ∧
    (parameter = none →
       generic_control_handler action parameter ctlVal test now
         = (ControlHandlerResult.CONTROL_RESULT_FAILED, [], [])) ∧
    (∀ b, parameter = some b →
       (generic_control_handler action parameter ctlVal test now).1
         = ControlHandlerResult.CONTROL_RESULT_OK) := by
  cases parameter with
  | none => simp [generic_control_handler]
  | some b =>
    obtain ⟨sel⟩ := action
    refine ⟨?_, ?_, ?_⟩
    · cases test <;> cases sel <;>
        simp [generic_control_handler, ControlAction_isSelect]
    · intro hc
      simp at hc
    · intro b2 hb2
      cases test <;> cases sel <;>
        simp [generic_control_handler, ControlAction_isSelect]

/-- C7 witness: a null binding fails with no effects; a concrete non-null
binding returns OK. -/
theorem claim7_witness :
    (generic_control_handler ⟨false⟩ none (MmsValue.int32 0) false 0).1
      = ControlHandlerResult.CONTROL_RESULT_FAILED ∧
    generic_control_handler ⟨false⟩ none (MmsValue.int32 0) false 0
      = (ControlHandlerResult.CONTROL_RESULT_FAILED, [], []) ∧
    (generic_control_handler ⟨false⟩ (some sampleBindingFull) (MmsValue.int32 0) false 0).1
      = ControlHandlerResult.CONTROL_RESULT_OK := by
  have h1 := claim7_failed_iff_null ⟨false⟩ none (MmsValue.int32 0) false 0
  have h2 := claim7_failed_iff_null ⟨false⟩ (some sampleBindingFull) (MmsValue.int32 0) false 0
  exact ⟨h1.1.mpr rfl, h1.2.1 rfl, h2.2.2 sampleBindingFull rfl⟩

/-- C6: bridge type inference follows the fixed precedence — case-insensitive
`"true"`/`"false"` gives a boolean (true exactly for `"true"`), otherwise a
string containing `'.'` gives a float, otherwise the `atoi` signed 32-bit
integer, with the non-numeric fallback `"abc"` giving integer 0; the function
consults only the raw string, never the attribute's declared type. -/
theorem claim6_type_inference (s : String) :
    ((strcasecmpEq s "true" || strcasecmpEq s "false") = true →
       inferBridgeValue s = MmsValue.boolean (strcasecmpEq s "true")) ∧
    ((strcasecmpEq s "true" || strcasecmpEq s "false") = false → strchrHas s '.' = true →
       inferBridgeValue s = MmsValue.float32 s) ∧
    ((strcasecmpEq s "true" || strcasecmpEq s "false") = false → strchrHas s '.' = false →
       inferBridgeValue s = MmsValue.int32 (int32wrap (atoiModel s))) ∧
    inferBridgeValue "abc" = MmsValue.int32 0 ∧
    inferBridgeValue "42" = MmsValue.int32 42 ∧
    inferBridgeValue "FALSE" = MmsValue.boolean false ∧
    inferBridgeValue "3.14" = MmsValue.float32 "3.14" := by
  refine ⟨?_, ?_, ?_, by decide, by decide, by decide, by decide⟩
  · intro h
    simp [inferBridgeValue, h]
  · intro h1 h2
    simp [inferBridgeValue, h1, h2]
  · intro h1 h2
    simp [inferBridgeValue, h1, h2]

/-- C6 witness: the three precedence branches at concrete inputs. -/
theorem claim6_witness :
    inferBridgeValue "tRuE" = MmsValue.boolean (strcasecmpEq "tRuE" "true") ∧
    inferBridgeValue "2.5" = MmsValue.float32 "2.5" ∧
    inferBridgeValue "-7" = MmsValue.int32 (int32wrap (atoiModel "-7")) :=
  ⟨(claim6_type_inference "tRuE").1 (by decide),
   (claim6_type_inference "2.5").2.1 (by decide) (by decide),
   (claim6_type_inference "-7").2.2.1 (by decide) (by decide)⟩

/-- C3 counterexample: the claim says a path whose direct resolution does not
yield an attribute, but whose `path.stVal` resolves to one, gets its value
applied to the `.stVal` attribute.  In the code the `.stVal` retry happens
only when direct resolution yields NULL: with a resolution map where the Data
Object path itself resolves to the (non-attribute) Data Object node and the
`.stVal` path resolves to the attribute, the bridge mutates nothing and emits
the `BRIDGE_ERR` diagnostic instead of applying the value. -/
theorem claim3_counterexample :
    resolveCex "LD0/LLN0.Mod" = some modDO ∧
    ModelNode_getType modDO ≠ ModelNodeType.DataAttributeModelType ∧
    resolveCex (strncpyBounded ("LD0/LLN0.Mod" ++ ".stVal") 255) = some stValNode ∧
    ModelNode_getType stValNode = ModelNodeType.DataAttributeModelType ∧
    handle_bridge_update resolveCex getParentNone true true 0 "LD0/LLN0.Mod" "1"
      = ([], ["BRIDGE_ERR: Node not found or not attribute: LD0/LLN0.Mod"]) :=
  ⟨rfl, by decide, rfl, rfl, rfl⟩

/-- C3 (amended): the bridge retries with the `.stVal` suffix only when the
direct resolution yields no node at all; a direct resolution yielding a
non-attribute node goes straight to the error path.  When the retried path
yields an attribute the value is applied to it; when the winning resolution
is not an attribute-kind node (or nothing resolves), no attribute is mutated
and exactly one `BRIDGE_ERR: Node not found or not attribute: <path>`
diagnostic is emitted — suppressed when the process-wide running flag is
cleared. -/
theorem claim3_resolution_fallback (resolve : String → Option ModelNode)
    (getParent : ModelNode → Option ModelNode) (running : Bool) (now : Nat)
    (ref valStr : String) :
    (∀ a, resolve ref = none →
       resolve (strncpyBounded (ref ++ ".stVal") 255) = some a →
       ModelNode_getType a = ModelNodeType.DataAttributeModelType →
       handle_bridge_update resolve getParent true running now ref valStr
         = (ServerEvent.updateAttr a (inferBridgeValue valStr)
              :: bridgeTimeEvents getParent a now,
            if running then ["BRIDGE_OK: Updated " ++ ref ++ " = " ++ valStr] else [])) ∧
    (∀ a, resolve ref = some a →
       ModelNode_getType a ≠ ModelNodeType.DataAttributeModelType →
       handle_bridge_update resolve getParent true running now ref valStr
         = ([], if running
                then ["BRIDGE_ERR: Node not found or not attribute: " ++ ref] else [])) ∧
    (∀ a, resolve ref = none →
       resolve (strncpyBounded (ref ++ ".stVal") 255) = some a →
       ModelNode_getType a ≠ ModelNodeType.DataAttributeModelType →
       handle_bridge_update resolve getParent true running now ref valStr
         = ([], if running
                then ["BRIDGE_ERR: Node not found or not attribute: " ++ ref] else [])) ∧
    (resolve ref = none →
       resolve (strncpyBounded (ref ++ ".stVal") 255) = none →
       handle_bridge_update resolve getParent true running now ref valStr
         = ([], if running
                then ["BRIDGE_ERR: Node not found or not attribute: " ++ ref] else [])) := by
  refine ⟨?_, ?_, ?_, ?_⟩
  · intro a h1 h2 h3
    simp [handle_bridge_update, bridgeResolve, h1, h2, h3]
  · intro a h1 h2
    simp [handle_bridge_update, bridgeResolve, h1, h2]
  · intro a h1 h2 h3
    simp [handle_bridge_update, bridgeResolve, h1, h2, h3]
  · intro h1 h2
    simp [handle_bridge_update, bridgeResolve, h1, h2]

/-- C3 witness: the genuine fallback (direct resolution NULL, `.stVal` path
an attribute) applies the value, and an unresolvable path yields exactly the
error diagnostic. -/
theorem claim3_witness :
    handle_bridge_update resolveFb getParentNone true true 0 "LD0/LLN0.Mod" "1"
      = (ServerEvent.updateAttr stValNode (inferBridgeValue "1")
           :: bridgeTimeEvents getParentNone stValNode 0,
         ["BRIDGE_OK: Updated " ++ "LD0/LLN0.Mod" ++ " = " ++ "1"]) ∧
    handle_bridge_update resolveFb getParentNone true true 0 "nope" "1"
      = ([], ["BRIDGE_ERR: Node not found or not attribute: nope"]) := by
  have h1 := claim3_resolution_fallback resolveFb getParentNone true 0 "LD0/LLN0.Mod" "1"
  have h2 := claim3_resolution_fallback resolveFb getParentNone true 0 "nope" "1"
  refine ⟨?_, ?_⟩
  · have := h1.1 stValNode rfl rfl rfl
    simpa using this
  · have := h2.2.2.2 rfl rfl
    simpa using this

/-- C10: once the resolution chain yields an attribute-kind node, the
attribute update and the companion timestamp stamp are applied identically
whether or not the process-wide running flag is set; only the `BRIDGE_OK`
confirmation line is conditional on the flag, so updates during shutdown
mutate the model silently. -/
theorem claim10_shutdown_updates (resolve : String → Option ModelNode)
    (getParent : ModelNode → Option ModelNode) (now : Nat) (ref valStr : String)
    (a : ModelNode) (hres : bridgeResolve resolve ref = some a)
    (hattr : ModelNode_getType a = ModelNodeType.DataAttributeModelType) :
    (handle_bridge_update resolve getParent true false now ref valStr).1
      = ServerEvent.updateAttr a (inferBridgeValue valStr)
          :: bridgeTimeEvents getParent a now ∧
    (handle_bridge_update resolve getParent true true now ref valStr).1
      = (handle_bridge_update resolve getParent true false now ref valStr).1 ∧
    (handle_bridge_update resolve getParent true false now ref valStr).2 = [] ∧
    (handle_bridge_update resolve getParent true true now ref valStr).2
      = ["BRIDGE_OK: Updated " ++ ref ++ " = " ++ valStr] := by
  refine ⟨?_, ?_, ?_, ?_⟩ <;> simp [handle_bridge_update, hres, hattr]

/-- C10 witness: at a concrete resolved attribute with a "t" sibling, the
cleared running flag changes only the confirmation output, not the emitted
update events. -/
theorem claim10_witness :
    (handle_bridge_update resolveFb getParentMod true false 7
        "LD0/LLN0.Mod.stVal" "true").1
      = ServerEvent.updateAttr stValNode (inferBridgeValue "true")
          :: bridgeTimeEvents getParentMod stValNode 7 ∧
    (handle_bridge_update resolveFb getParentMod true true 7
        "LD0/LLN0.Mod.stVal" "true").1
      = (handle_bridge_update resolveFb getParentMod true false 7
          "LD0/LLN0.Mod.stVal" "true").1 ∧
    (handle_bridge_update resolveFb getParentMod true false 7
        "LD0/LLN0.Mod.stVal" "true").2 = [] ∧
    (handle_bridge_update resolveFb getParentMod true true 7
        "LD0/LLN0.Mod.stVal" "true").2
      = ["BRIDGE_OK: Updated " ++ "LD0/LLN0.Mod.stVal" ++ " = " ++ "true"] :=
  claim10_shutdown_updates resolveFb getParentMod 7 "LD0/LLN0.Mod.stVal" "true"
    stValNode rfl rfl
